import Mathlib

/-!
Shallow embedding of the buffpool package (buf.go): a fixed-capacity pool of
reusable fixed-size buffers with a per-buffer atomic ownership flag.  The
embedding gives the sequential (single-thread, interleaving-free) semantics
of the public operations.  Go pointers to buffers are modelled by identifiers
(`Nat`) into an allocation heap carried by the pool state; the Go channel
`p.buffers` is modelled by a FIFO list of identifiers together with its
capacity and its nil/closed status; a Go panic is modelled as `Except.error`
carrying the panic message; a result of `none` from `Pool.Acquire` means the
fuel for its (possibly non-terminating) retry recursion ran out.
-/

namespace BuffPool

/-- Buffer from buf.go: fixed-capacity storage `data`, valid-length cursor
`length` (a Go `int`, hence `Int` here), and ownership flag `inUse` (an
`int32` that only ever holds 0 or 1, hence `Bool` here, `true` meaning 1).
The `pool` back-pointer is left implicit: the embedding works with a single
pool state at a time. -/
structure Buffer (T : Type) where
  data : List T
  length : Int
  inUse : Bool

/-- SetLength from buf.go: clamps the argument from above at `cap(b.data)`
(which equals `len(b.data)` for every buffer the pool allocates) and stores
it; a negative argument is stored unchanged. -/
def Buffer.SetLength (b : Buffer T) (len : Int) : Buffer T :=
  let l := if len > (b.data.length : Int) then (b.data.length : Int) else len
  { b with length := l }

/-- GetLength from buf.go. -/
def Buffer.GetLength (b : Buffer T) : Int := b.length

/-- Effect of a successful `Buffer.Release` on the buffer's own fields
(buf.go lines 36-38): the compare-and-swap moves `inUse` from 1 to 0, then
`SetLength(0)` clears the valid length. -/
def Buffer.releaseFields (b : Buffer T) : Buffer T :=
  Buffer.SetLength { b with inUse := false } 0

/-- Pool from buf.go.  `heap`/`nextId` model the Go allocation of buffer
pointers; `buffers` is the list of buffer identifiers sitting in the channel
in FIFO order (head = next to be received); `chanCap`, `chanExists` and
`chanClosed` model the channel's capacity, non-nilness and closedness.
`bufSize`, `bufCount`, `isInitialized` and `isReleased` are the Go fields
(`isReleased` is an `int32` holding 0 or 1, hence `Bool`). -/
structure Pool (T : Type) where
  heap : Nat → Buffer T
  nextId : Nat
  buffers : List Nat
  chanCap : Nat
  chanExists : Bool
  chanClosed : Bool
  bufSize : Int
  bufCount : Int
  isInitialized : Bool
  isReleased : Bool

/-- Buffer freshly allocated by `Init` or `Reset` (buf.go lines 77-82 and
160-165): zeroed storage of the configured size, `length` 0, `inUse` 0. -/
def freshBuffer (T : Type) [Inhabited T] (size : Nat) : Buffer T :=
  { data := List.replicate size default, length := 0, inUse := false }

/-- NewPool from buf.go: zero-valued pool, channel still nil. -/
def NewPool (T : Type) [Inhabited T] : Pool T :=
  { heap := fun _ => freshBuffer T 0, nextId := 0, buffers := [], chanCap := 0,
    chanExists := false, chanClosed := false, bufSize := 0, bufCount := 0,
    isInitialized := false, isReleased := false }

/-- One iteration of the seeding loops of `Init` and `Reset`: allocate a
fresh buffer and send it into the channel. -/
def allocOne [Inhabited T] (size : Nat) (p : Pool T) : Pool T :=
  { p with heap := Function.update p.heap p.nextId (freshBuffer T size),
           nextId := p.nextId + 1,
           buffers := p.buffers ++ [p.nextId] }

/-- Seeding loop of `Init` (buf.go lines 76-83) and `Reset` (lines 159-166):
allocate and enqueue `k` fresh buffers of the given size. -/
def seed [Inhabited T] (k : Nat) (size : Nat) (p : Pool T) : Pool T :=
  match k with
  | 0 => p
  | Nat.succ k => seed k size (allocOne size p)

/-- Init from buf.go (lines 60-87).  The second component is the returned
`error` (`none` = nil). -/
def Pool.Init [Inhabited T] (p : Pool T) (bufCount bufSize : Int) :
    Pool T × Option String :=
  if p.isReleased then (p, some "pool has been released")
  else if bufCount ≤ 0 ∨ bufSize ≤ 0 then (p, some "invalid buffer count or size")
  else
    let p1 := { p with bufCount := bufCount, bufSize := bufSize,
                       buffers := [], chanCap := bufCount.toNat,
                       chanExists := true, chanClosed := false }
    ({ seed bufCount.toNat bufSize.toNat p1 with isInitialized := true }, none)

/-- put from buf.go (lines 108-122).  The `select`-with-`default` send: a
send on a closed channel is ready and panics; a send on a nil channel is
never ready, and a send on a full channel is not ready, so both fall through
to `default` and the "full pool" panic. -/
def Pool.put (p : Pool T) (bId : Nat) : Except String (Pool T) :=
  if p.isReleased then .ok p
  else if (p.heap bId).inUse = false then
    if p.chanExists ∧ p.chanClosed then .error "send on closed channel"
    else if p.chanExists ∧ p.buffers.length < p.chanCap then
      .ok { p with buffers := p.buffers ++ [bId] }
    else .error "Attempting to return a buffer to a full pool"
  else .error "Attempting to return a buffer that is still in use"

/-- Release from buf.go (lines 35-42), the Buffer method: on a successful
compare-and-swap of `inUse` from 1 to 0, clear the length and hand the
buffer to `Pool.put`; otherwise panic. -/
def Buffer.Release (bId : Nat) (p : Pool T) : Except String (Pool T) :=
  if (p.heap bId).inUse = true then
    Pool.put { p with heap := Function.update p.heap bId ((p.heap bId).releaseFields) } bId
  else .error "Buffer already released or was never acquired"

/-- Acquire from buf.go (lines 124-139), with explicit fuel for the
self-recursion on line 135.  The `select`-with-`default` receive: a receive
on a nil channel or an empty open channel falls through to `default`; a
receive on an empty closed channel yields the zero value nil, on which the
subsequent compare-and-swap would fault. -/
def Pool.Acquire : Nat → Pool T → Option (Except String (Option Nat × Pool T))
  | 0, _ => none
  | Nat.succ fuel, p =>
    if p.isReleased then some (.ok (none, p))
    else
      match p.buffers with
      | [] =>
        if p.chanExists ∧ p.chanClosed then some (.error "nil pointer dereference")
        else some (.ok (none, p))
      | bId :: rest =>
        if (p.heap bId).inUse = false then
          some (.ok (some bId,
            { p with buffers := rest,
                     heap := Function.update p.heap bId
                       { p.heap bId with inUse := true } }))
        else
          match Pool.put { p with buffers := rest } bId with
          | .error e => some (.error e)
          | .ok p1 => Pool.Acquire fuel p1

/-- Reset from buf.go (lines 141-167): no-op if released or never
initialized; otherwise drain the channel and reseed `bufCount` fresh buffers
of size `bufSize`. -/
def Pool.Reset [Inhabited T] (p : Pool T) : Pool T :=
  if p.isReleased then p
  else if p.isInitialized = false then p
  else seed p.bufCount.toNat p.bufSize.toNat { p with buffers := [] }

/-- Available from buf.go (lines 169-174). -/
def Pool.Available (p : Pool T) : Int :=
  if p.isReleased then 0 else (p.buffers.length : Int)

/-- BufferChan from buf.go (lines 89-106), modelled only up to the nilness
of the returned channel (`none` = nil): the body of the spawned goroutine is
concurrent streaming behaviour outside the sequential embedding. -/
def Pool.BufferChan (p : Pool T) : Option Unit :=
  if p.isReleased then none else some ()

/-- Release from buf.go (lines 176-192), the Pool method: the
compare-and-swap on `isReleased` makes the second call a no-op; the first
call drains the channel, closes it (`close` of a nil channel panics) and
zeroes the configuration. -/
def Pool.Release (p : Pool T) : Except String (Pool T) :=
  if p.isReleased then .ok p
  else if p.chanExists = false then .error "close of nil channel"
  else if p.chanClosed then .error "close of closed channel"
  else .ok { p with isReleased := true, buffers := [], chanClosed := true,
                    bufCount := 0, bufSize := 0, isInitialized := false }

/-- Buffer states reachable from construction through the public buffer
operations, with `SetLength` restricted to nonnegative arguments: the
acquire step is the compare-and-swap of `inUse` from 0 to 1 in
`Pool.Acquire`/`BufferChan`, the release step is the field effect of a
successful `Buffer.Release`. -/
inductive ReachableBuf {T : Type} [Inhabited T] : Buffer T → Prop
  | init (size : Nat) : ReachableBuf (freshBuffer T size)
  | set {b : Buffer T} (n : Int) : ReachableBuf b → 0 ≤ n →
      ReachableBuf (b.SetLength n)
  | acq {b : Buffer T} : ReachableBuf b → ReachableBuf { b with inUse := true }
  | rel {b : Buffer T} : ReachableBuf b → b.inUse = true →
      ReachableBuf b.releaseFields

/-- Pool of two Int buffers of size 3 right after `Init(2, 3)`. -/
def initPool : Pool Int := (Pool.Init (NewPool Int) 2 3).1

/-- Pool of two Int buffers of size 3 after `Init(2, 3)` followed by one
successful `Acquire` handing out buffer 0. -/
def heldPool : Pool Int :=
  { heap := Function.update (fun _ => freshBuffer Int 3) 0
      { data := List.replicate 3 0, length := 0, inUse := true },
    nextId := 2, buffers := [1], chanCap := 2, chanExists := true,
    chanClosed := false, bufSize := 3, bufCount := 2, isInitialized := true,
    isReleased := false }

/-- Pool state in the defensive branch of `Acquire`: the buffer at the head
of the free list is already marked in use. -/
def stuckPool : Pool Int :=
  { heap := fun _ => { data := [0], length := 0, inUse := true },
    nextId := 1, buffers := [0], chanCap := 1, chanExists := true,
    chanClosed := false, bufSize := 1, bufCount := 1, isInitialized := true,
    isReleased := false }

/-- Pool after `Init(2, 3)` followed by a pool-level `Release()`. -/
def releasedPool : Pool Int :=
  { heap := fun _ => freshBuffer Int 3, nextId := 2, buffers := [],
    chanCap := 2, chanExists := true, chanClosed := true, bufSize := 0,
    bufCount := 0, isInitialized := false, isReleased := true }

/-! Helper lemmas about the seeding loop shared by `Init` and `Reset`. -/

@[simp]
theorem seed_isReleased [Inhabited T] (k size : Nat) (p : Pool T) :
    (seed k size p).isReleased = p.isReleased := by
  induction k generalizing p with
  | zero => rfl
  | succ k ih => simp [seed, ih, allocOne]

@[simp]
theorem seed_isInitialized [Inhabited T] (k size : Nat) (p : Pool T) :
    (seed k size p).isInitialized = p.isInitialized := by
  induction k generalizing p with
  | zero => rfl
  | succ k ih => simp [seed, ih, allocOne]

@[simp]
theorem seed_chanExists [Inhabited T] (k size : Nat) (p : Pool T) :
    (seed k size p).chanExists = p.chanExists := by
  induction k generalizing p with
  | zero => rfl
  | succ k ih => simp [seed, ih, allocOne]

@[simp]
theorem seed_chanClosed [Inhabited T] (k size : Nat) (p : Pool T) :
    (seed k size p).chanClosed = p.chanClosed := by
  induction k generalizing p with
  | zero => rfl
  | succ k ih => simp [seed, ih, allocOne]

@[simp]
theorem seed_chanCap [Inhabited T] (k size : Nat) (p : Pool T) :
    (seed k size p).chanCap = p.chanCap := by
  induction k generalizing p with
  | zero => rfl
  | succ k ih => simp [seed, ih, allocOne]

@[simp]
theorem seed_bufCount [Inhabited T] (k size : Nat) (p : Pool T) :
    (seed k size p).bufCount = p.bufCount := by
  induction k generalizing p with
  | zero => rfl
  | succ k ih => simp [seed, ih, allocOne]

@[simp]
theorem seed_bufSize [Inhabited T] (k size : Nat) (p : Pool T) :
    (seed k size p).bufSize = p.bufSize := by
  induction k generalizing p with
  | zero => rfl
  | succ k ih => simp [seed, ih, allocOne]

@[simp]
theorem seed_nextId [Inhabited T] (k size : Nat) (p : Pool T) :
    (seed k size p).nextId = p.nextId + k := by
  induction k generalizing p with
  | zero => rfl
  | succ k ih => simp [seed, ih, allocOne]; omega

@[simp]
theorem seed_buffers_length [Inhabited T] (k size : Nat) (p : Pool T) :
    (seed k size p).buffers.length = p.buffers.length + k := by
  induction k generalizing p with
  | zero => rfl
  | succ k ih => simp [seed, ih, allocOne]; omega

theorem seed_heap_lt [Inhabited T] (k size : Nat) :
    ∀ (p : Pool T) (b : Nat), b < p.nextId →
      (seed k size p).heap b = p.heap b := by
  induction k with
  | zero => intro p b _; rfl
  | succ k ih =>
    intro p b hb
    show (seed k size (allocOne size p)).heap b = p.heap b
    rw [ih (allocOne size p) b (by simp [allocOne]; omega)]
    simp only [allocOne]
    exact Function.update_noteq (by omega) _ _

theorem seed_mem_buffers [Inhabited T] (k size : Nat) :
    ∀ (p : Pool T) (i : Nat), i ∈ (seed k size p).buffers →
      i ∈ p.buffers ∨ p.nextId ≤ i := by
  induction k with
  | zero => intro p i h; exact Or.inl h
  | succ k ih =>
    intro p i h
    rcases ih (allocOne size p) i h with h1 | h1
    · simp only [allocOne, List.mem_append, List.mem_singleton] at h1
      rcases h1 with h1 | h1
      · exact Or.inl h1
      · exact Or.inr (le_of_eq h1.symm)
    · simp only [allocOne] at h1
      exact Or.inr (by omega)

theorem seed_fresh [Inhabited T] (k size : Nat) :
    ∀ (p : Pool T),
      (∀ i ∈ p.buffers, i < p.nextId ∧ p.heap i = freshBuffer T size) →
      ∀ i ∈ (seed k size p).buffers,
        i < (seed k size p).nextId ∧ (seed k size p).heap i = freshBuffer T size := by
  induction k with
  | zero => intro p hp; exact hp
  | succ k ih =>
    intro p hp
    apply ih
    intro i hi
    simp only [allocOne, List.mem_append, List.mem_singleton] at hi
    simp only [allocOne]
    rcases hi with hi | hi
    · have h2 := hp i hi
      refine ⟨by omega, ?_⟩
      rw [Function.update_noteq (by omega)]
      exact h2.2
    · subst hi
      exact ⟨by omega, Function.update_same _ _ _⟩

/-- C1: on an initialized, non-released pool whose free list is within the
channel capacity and whose head buffer is free, `Acquire` hands out the head
buffer, and releasing it brings `Available` back to its pre-acquire value
and leaves the released buffer with `GetLength = 0`. -/
theorem C1_acquire_release_roundtrip {T : Type} (p : Pool T) (b : Nat) (rest : List Nat)
    (hrel : p.isReleased = false)
    (hq : p.buffers = b :: rest)
    (hfree : (p.heap b).inUse = false)
    (hex : p.chanExists = true) (hcl : p.chanClosed = false)
    (hcap : p.buffers.length ≤ p.chanCap) :
    ∃ p1 p2, Pool.Acquire 1 p = some (.ok (some b, p1)) ∧
      Buffer.Release b p1 = .ok p2 ∧
      Pool.Available p2 = Pool.Available p ∧
      (p2.heap b).GetLength = 0 := by
  have hlen : rest.length < p.chanCap := by
    rw [hq] at hcap
    simp only [List.length_cons] at hcap
    omega
  refine ⟨{ p with
              buffers := rest,
              heap := Function.update p.heap b { p.heap b with inUse := true } },
          { p with
              buffers := rest ++ [b],
              heap := Function.update
                (Function.update p.heap b { p.heap b with inUse := true }) b
                (Buffer.releaseFields { p.heap b with inUse := true }) },
          ?_, ?_, ?_, ?_⟩
  · simp [Pool.Acquire, hrel, hq, hfree]
  · simp [Buffer.Release, Pool.put, Function.update_same, hrel, hex, hcl, hlen,
      Buffer.releaseFields, Buffer.SetLength]
  · simp [Pool.Available, hrel, hq]
  · simp only [Function.update_same, Buffer.releaseFields, Buffer.SetLength,
      Buffer.GetLength]
    split <;> omega

/-- C1 witness: the round trip on the concrete pool `initPool`. -/
theorem C1_witness :
    (initPool.isReleased = false ∧ initPool.buffers = 0 :: [1] ∧
     (initPool.heap 0).inUse = false ∧ initPool.chanExists = true ∧
     initPool.chanClosed = false ∧ initPool.buffers.length ≤ initPool.chanCap) ∧
    ∃ p1 p2, Pool.Acquire 1 initPool = some (.ok (some 0, p1)) ∧
      Buffer.Release 0 p1 = .ok p2 ∧
      Pool.Available p2 = Pool.Available initPool ∧
      (p2.heap 0).GetLength = 0 :=
  ⟨⟨rfl, rfl, rfl, rfl, rfl, by decide⟩,
   C1_acquire_release_roundtrip initPool 0 [1] rfl rfl rfl rfl rfl (by decide)⟩

/-- C2: on a non-released pool, `Init(count, size)` with positive arguments
returns nil, `Available` afterwards equals `count`, and every buffer in the
free list has `inUse = 0`, `length = 0` and storage of size `size`. -/
theorem C2_init_postcondition {T : Type} [Inhabited T] (p : Pool T) (count size : Int)
    (hrel : p.isReleased = false) (hc : 0 < count) (hs : 0 < size) :
    (Pool.Init p count size).2 = none ∧
    Pool.Available (Pool.Init p count size).1 = count ∧
    ∀ i ∈ (Pool.Init p count size).1.buffers,
      ((Pool.Init p count size).1.heap i).inUse = false ∧
      ((Pool.Init p count size).1.heap i).GetLength = 0 ∧
      (((Pool.Init p count size).1.heap i).data.length : Int) = size := by
  have hnc : ¬(count ≤ 0 ∨ size ≤ 0) := by omega
  have hinit : Pool.Init p count size =
      ({ seed count.toNat size.toNat
           { p with bufCount := count, bufSize := size, buffers := [],
                    chanCap := count.toNat, chanExists := true, chanClosed := false }
         with isInitialized := true }, none) := by
    simp [Pool.Init, hrel, hnc]
  rw [hinit]
  refine ⟨rfl, ?_, ?_⟩
  · simp [Pool.Available, hrel]
    omega
  · intro i hi
    have hfr := seed_fresh count.toNat size.toNat
      { p with bufCount := count, bufSize := size, buffers := [],
               chanCap := count.toNat, chanExists := true, chanClosed := false }
      (by intro j hj; simp at hj) i (by simpa using hi)
    have hh : ({ seed count.toNat size.toNat
        { p with bufCount := count, bufSize := size, buffers := [],
                 chanCap := count.toNat, chanExists := true, chanClosed := false }
        with isInitialized := true} : Pool T).heap i = freshBuffer T size.toNat :=
      hfr.2
    rw [hh]
    refine ⟨rfl, rfl, ?_⟩
    simp [freshBuffer]
    omega

/-- C2 witness: `Init(2, 3)` on a fresh pool of Int buffers. -/
theorem C2_witness :
    ((NewPool Int).isReleased = false ∧ (0 : Int) < 2 ∧ (0 : Int) < 3) ∧
    ((Pool.Init (NewPool Int) 2 3).2 = none ∧
     Pool.Available (Pool.Init (NewPool Int) 2 3).1 = 2 ∧
     ∀ i ∈ (Pool.Init (NewPool Int) 2 3).1.buffers,
       ((Pool.Init (NewPool Int) 2 3).1.heap i).inUse = false ∧
       ((Pool.Init (NewPool Int) 2 3).1.heap i).GetLength = 0 ∧
       (((Pool.Init (NewPool Int) 2 3).1.heap i).data.length : Int) = 3) :=
  ⟨⟨rfl, by decide, by decide⟩,
   C2_init_postcondition (NewPool Int) 2 3 rfl (by decide) (by decide)⟩

/-- C3 counterexample: `SetLength` stores a negative argument unchanged, so
a single public operation on a freshly constructed buffer drives
`validLength` below 0, outside the claimed interval `[0, C]`. -/
theorem C3_counterexample :
    ((freshBuffer Int 10).SetLength (-1)).GetLength < 0 := by decide

/-- C3 (amended): with `SetLength` restricted to nonnegative arguments,
every buffer reachable through the public operations keeps `validLength` in
`[0, C]`; moreover `validLength` is 0 on construction and 0 again after the
field effect of every successful `Release`. -/
theorem C3_validLength_invariant {T : Type} [Inhabited T] (b : Buffer T)
    (hb : ReachableBuf b) :
    (0 ≤ b.GetLength ∧ b.GetLength ≤ (b.data.length : Int)) ∧
    (∀ size, (freshBuffer T size).GetLength = 0) ∧
    (∀ c : Buffer T, c.inUse = true → c.releaseFields.GetLength = 0) := by
  refine ⟨?_, fun size => rfl, fun c _ => ?_⟩
  · induction hb with
    | init size => simp [freshBuffer, Buffer.GetLength]
    | set n hr hn ih =>
      simp only [Buffer.SetLength, Buffer.GetLength] at ih ⊢
      constructor <;> · split <;> omega
    | acq hr ih => simpa [Buffer.GetLength] using ih
    | rel hr hin ih =>
      simp only [Buffer.releaseFields, Buffer.SetLength, Buffer.GetLength]
      constructor <;> · split <;> omega
  · simp only [Buffer.releaseFields, Buffer.SetLength, Buffer.GetLength]
    split <;> omega

/-- C3 witness: the invariant instantiated at a freshly constructed buffer
of capacity 5 with `SetLength 4` applied. -/
theorem C3_witness :
    (0 ≤ ((freshBuffer Int 5).SetLength 4).GetLength ∧
     ((freshBuffer Int 5).SetLength 4).GetLength ≤
       ((((freshBuffer Int 5).SetLength 4)).data.length : Int)) ∧
    (∀ size, (freshBuffer Int size).GetLength = 0) ∧
    (∀ c : Buffer Int, c.inUse = true → c.releaseFields.GetLength = 0) :=
  C3_validLength_invariant ((freshBuffer Int 5).SetLength 4)
    (ReachableBuf.set 4 (ReachableBuf.init 5) (by decide))

/-- C4: evaluation of the code at the defensive-retry input.  When `Acquire`
dequeues a buffer whose compare-and-swap 0 to 1 fails (the buffer's `inUse`
is already 1), the code calls `put`, but `put` reloads `inUse`, still sees
1, and panics "Attempting to return a buffer that is still in use" — the
buffer is neither returned to the free list nor retried, contradicting the
spec and the code's own comment "put it back and try again". -/
theorem C4_defensive_retry_panics :
    Pool.Acquire 2 stuckPool =
      some (.error "Attempting to return a buffer that is still in use") := rfl

/-- C5: a buffer currently marked in use (i.e. successfully acquired) on a
non-released pool with room in the free list releases once with success,
and the second `Release` without a re-acquire panics. -/
theorem C5_double_release_fatal {T : Type} (p : Pool T) (b : Nat)
    (hin : (p.heap b).inUse = true)
    (hrel : p.isReleased = false)
    (hex : p.chanExists = true) (hcl : p.chanClosed = false)
    (hcap : p.buffers.length < p.chanCap) :
    ∃ p1, Buffer.Release b p = .ok p1 ∧
      Buffer.Release b p1 = .error "Buffer already released or was never acquired" := by
  refine ⟨{ p with
              heap := Function.update p.heap b ((p.heap b).releaseFields),
              buffers := p.buffers ++ [b] },
          ?_, ?_⟩
  · simp [Buffer.Release, hin, Pool.put, hrel, hex, hcl, hcap,
      Function.update_same, Buffer.releaseFields, Buffer.SetLength]
  · simp [Buffer.Release, Function.update_same, Buffer.releaseFields,
      Buffer.SetLength]

/-- C5 witness: double release of the held buffer 0 of `heldPool`. -/
theorem C5_witness :
    ((heldPool.heap 0).inUse = true ∧ heldPool.isReleased = false ∧
     heldPool.chanExists = true ∧ heldPool.chanClosed = false ∧
     heldPool.buffers.length < heldPool.chanCap) ∧
    ∃ p1, Buffer.Release 0 heldPool = .ok p1 ∧
      Buffer.Release 0 p1 = .error "Buffer already released or was never acquired" :=
  ⟨⟨rfl, rfl, rfl, rfl, by decide⟩,
   C5_double_release_fatal heldPool 0 rfl rfl rfl rfl (by decide)⟩

/-- C6: on an initialized, non-released pool whose channel capacity equals
its buffer count, a consumer holding buffer `b` (`inUse = 1`) who calls
`Release` after `Reset` has refilled the free list hits the full free list:
the enqueue fails fatally with "Attempting to return a buffer to a full
pool" instead of blocking or silently dropping the buffer. -/
theorem C6_orphaned_release_full_pool {T : Type} [Inhabited T] (p : Pool T) (b : Nat)
    (hrel : p.isReleased = false) (hinit : p.isInitialized = true)
    (hcl : p.chanClosed = false)
    (hcc : p.chanCap = p.bufCount.toNat)
    (hb : (p.heap b).inUse = true) (hblt : b < p.nextId) :
    Buffer.Release b (Pool.Reset p) =
      .error "Attempting to return a buffer to a full pool" := by
  have hq : Pool.Reset p =
      seed p.bufCount.toNat p.bufSize.toNat { p with buffers := [] } := by
    simp [Pool.Reset, hrel, hinit]
  rw [hq]
  have hheap := seed_heap_lt p.bufCount.toNat p.bufSize.toNat
    { p with buffers := [] } b hblt
  have hinuse : ((seed p.bufCount.toNat p.bufSize.toNat
      { p with buffers := [] }).heap b).inUse = true := by
    rw [hheap]; exact hb
  simp only [Buffer.Release]
  rw [if_pos hinuse]
  simp [Pool.put, hrel, hcl, hcc, Function.update_same,
    Buffer.releaseFields, Buffer.SetLength]

/-- C6 witness: buffer 0 of `heldPool` is orphaned by `Reset` and its
release panics on the refilled free list. -/
theorem C6_witness :
    (heldPool.isReleased = false ∧ heldPool.isInitialized = true ∧
     heldPool.chanClosed = false ∧ heldPool.chanCap = heldPool.bufCount.toNat ∧
     (heldPool.heap 0).inUse = true ∧ 0 < heldPool.nextId) ∧
    Buffer.Release 0 (Pool.Reset heldPool) =
      .error "Attempting to return a buffer to a full pool" :=
  ⟨⟨rfl, rfl, rfl, rfl, rfl, by decide⟩,
   C6_orphaned_release_full_pool heldPool 0 rfl rfl rfl rfl rfl (by decide)⟩

/-- C7: once `isReleased` is set, the pool is inert: `Acquire` (any positive
fuel) returns not-found, `BufferChan` returns nil, `Available` returns 0,
and `Reset` and `Release` are no-ops returning the state unchanged — so the
released flag stays set forever under these operations. -/
theorem C7_released_pool_inert {T : Type} [Inhabited T] (p : Pool T) (fuel : Nat)
    (h : p.isReleased = true) :
    Pool.Acquire (fuel + 1) p = some (.ok (none, p)) ∧
    Pool.BufferChan p = none ∧
    Pool.Available p = 0 ∧
    Pool.Reset p = p ∧
    Pool.Release p = .ok p := by
  refine ⟨?_, ?_, ?_, ?_, ?_⟩ <;>
    simp [Pool.Acquire, Pool.BufferChan, Pool.Available, Pool.Reset,
      Pool.Release, h]

/-- C7 witness: the inertness conjunction at the concrete released pool. -/
theorem C7_witness :
    releasedPool.isReleased = true ∧
    (Pool.Acquire 1 releasedPool = some (.ok (none, releasedPool)) ∧
     Pool.BufferChan releasedPool = none ∧
     Pool.Available releasedPool = 0 ∧
     Pool.Reset releasedPool = releasedPool ∧
     Pool.Release releasedPool = .ok releasedPool) :=
  ⟨rfl, C7_released_pool_inert releasedPool 0 rfl⟩

/-- C8 counterexample: on a pool that was constructed but never successfully
initialized the internal channel is still nil, and the first pool
`Release()` panics closing it — it does not complete without aborting. -/
theorem C8_counterexample :
    Pool.Release (NewPool Int) = .error "close of nil channel" := rfl

/-- C8 (amended): on every pool on which `Init` has succeeded at least once
(so the free-list channel exists and is not yet closed), the first
`Release()` completes without aborting — draining and closing the free list
and clearing `bufCount`, `bufSize` and `isInitialized` — and any repeated
`Release()` is a safe no-op. -/
theorem C8_release_idempotent {T : Type} (p : Pool T)
    (hrel : p.isReleased = false) (hex : p.chanExists = true)
    (hcl : p.chanClosed = false) :
    ∃ p1, Pool.Release p = .ok p1 ∧ p1.buffers = [] ∧ p1.chanClosed = true ∧
      p1.bufCount = 0 ∧ p1.bufSize = 0 ∧ p1.isInitialized = false ∧
      p1.isReleased = true ∧ Pool.Release p1 = .ok p1 := by
  refine ⟨{ p with
              isReleased := true,
              buffers := [],
              chanClosed := true,
              bufCount := 0,
              bufSize := 0,
              isInitialized := false },
          ?_, rfl, rfl, rfl, rfl, rfl, rfl, ?_⟩
  · simp [Pool.Release, hrel, hex, hcl]
  · simp [Pool.Release]

/-- C8 witness: teardown of the concrete initialized pool `initPool`. -/
theorem C8_witness :
    (initPool.isReleased = false ∧ initPool.chanExists = true ∧
     initPool.chanClosed = false) ∧
    ∃ p1, Pool.Release initPool = .ok p1 ∧ p1.buffers = [] ∧
      p1.chanClosed = true ∧ p1.bufCount = 0 ∧ p1.bufSize = 0 ∧
      p1.isInitialized = false ∧ p1.isReleased = true ∧
      Pool.Release p1 = .ok p1 :=
  ⟨⟨rfl, rfl, rfl⟩, C8_release_idempotent initPool rfl rfl rfl⟩

/-- C9: `Init` with `count ≤ 0` or `size ≤ 0` on a non-released pool returns
the configuration error with the state unchanged, `Available` of a fresh
pool stays 0 after such a call, and `Init` on a released pool returns the
"pool has been released" error with the state unchanged, so a released pool
is never reinitialized. -/
theorem C9_init_error_contract {T : Type} [Inhabited T] (p : Pool T)
    (count size : Int) :
    ((count ≤ 0 ∨ size ≤ 0) → p.isReleased = false →
       Pool.Init p count size = (p, some "invalid buffer count or size")) ∧
    ((count ≤ 0 ∨ size ≤ 0) →
       Pool.Available (Pool.Init (NewPool T) count size).1 = 0) ∧
    (p.isReleased = true →
       Pool.Init p count size = (p, some "pool has been released")) := by
  refine ⟨fun hbad hrel => ?_, fun hbad => ?_, fun hrel => ?_⟩
  · simp [Pool.Init, hrel, hbad]
  · have h1 : Pool.Init (NewPool T) count size =
        (NewPool T, some "invalid buffer count or size") := by
      simp [Pool.Init, NewPool, hbad]
    rw [h1]
    rfl
  · simp [Pool.Init, hrel]

/-- C9 witness: `Init(0, 5)` on a fresh pool and `Init(3, 4)` on a released
pool. -/
theorem C9_witness :
    Pool.Init (NewPool Int) 0 5 = (NewPool Int, some "invalid buffer count or size") ∧
    Pool.Available (Pool.Init (NewPool Int) 0 5).1 = 0 ∧
    Pool.Init releasedPool 3 4 = (releasedPool, some "pool has been released") :=
  ⟨(C9_init_error_contract (NewPool Int) 0 5).1 (Or.inl (by decide)) rfl,
   (C9_init_error_contract (NewPool Int) 0 5).2.1 (Or.inl (by decide)),
   (C9_init_error_contract releasedPool 3 4).2.2 rfl⟩

/-- C10: `Init(count, size)` with valid arguments on an initialized,
non-released pool succeeds again: it returns nil, stores the new
configuration, makes `Available` equal to the new count, and fills the free
list only with freshly allocated buffers, so no buffer allocated before this
second `Init` (in particular none acquired earlier) is ever in the new free
list. -/
theorem C10_reinit_discards_free_list {T : Type} [Inhabited T] (p : Pool T)
    (count size : Int)
    (hrel : p.isReleased = false) (_hinit : p.isInitialized = true)
    (hc : 0 < count) (hs : 0 < size) :
    (Pool.Init p count size).2 = none ∧
    Pool.Available (Pool.Init p count size).1 = count ∧
    (Pool.Init p count size).1.bufCount = count ∧
    (Pool.Init p count size).1.bufSize = size ∧
    (∀ i ∈ (Pool.Init p count size).1.buffers, p.nextId ≤ i) ∧
    ∀ b < p.nextId, b ∉ (Pool.Init p count size).1.buffers := by
  have hnc : ¬(count ≤ 0 ∨ size ≤ 0) := by omega
  have hinitEq : Pool.Init p count size =
      ({ seed count.toNat size.toNat
           { p with bufCount := count, bufSize := size, buffers := [],
                    chanCap := count.toNat, chanExists := true, chanClosed := false }
         with isInitialized := true }, none) := by
    simp [Pool.Init, hrel, hnc]
  rw [hinitEq]
  have hmem : ∀ i ∈ (seed count.toNat size.toNat
      { p with bufCount := count, bufSize := size, buffers := [],
               chanCap := count.toNat, chanExists := true,
               chanClosed := false }).buffers, p.nextId ≤ i := by
    intro i hi
    rcases seed_mem_buffers count.toNat size.toNat _ i hi with h | h
    · simp at h
    · exact h
  refine ⟨rfl, ?_, ?_, ?_, hmem, fun b hb hmemb => ?_⟩
  · simp [Pool.Available, hrel]
    omega
  · simp
  · simp
  · exact absurd (hmem b hmemb) (by omega)

/-- C10 witness: re-running `Init(1, 4)` on the already initialized
`initPool`. -/
theorem C10_witness :
    (initPool.isReleased = false ∧ initPool.isInitialized = true ∧
     (0 : Int) < 1 ∧ (0 : Int) < 4) ∧
    ((Pool.Init initPool 1 4).2 = none ∧
     Pool.Available (Pool.Init initPool 1 4).1 = 1 ∧
     (Pool.Init initPool 1 4).1.bufCount = 1 ∧
     (Pool.Init initPool 1 4).1.bufSize = 4 ∧
     (∀ i ∈ (Pool.Init initPool 1 4).1.buffers, initPool.nextId ≤ i) ∧
     ∀ b < initPool.nextId, b ∉ (Pool.Init initPool 1 4).1.buffers) :=
  ⟨⟨rfl, rfl, by decide, by decide⟩,
   C10_reinit_discards_free_list initPool 1 4 rfl rfl (by decide) (by decide)⟩

end BuffPool
